import Mathlib

/-!
Verification of the conversational-retrieval orchestration in
`src/copilot_langchain/langchain-chat.ipynb` (a LangChain RAG notebook)
against its natural-language specification.

The notebook's own code is embedded directly (credential setup, the prompt
template text, the retriever configuration, the search-resource-name
computation).  The orchestration loop, prompt composer, conversation memory
and the external retrieval/completion capabilities are supplied by the
third-party framework and the cloud services, which are not part of this
repository; those components are modelled from the specification's
contracts (each such definition says so in its doc comment).
-/

set_option maxRecDepth 4096

namespace RagChat

/-- Error taxonomy of the spec (§7): configuration, retrieval, template and
model errors.  `configurationError` carries the missing environment key
(the notebook raises `KeyError(key)` on a missing variable). -/
inductive RagError
  | configurationError (missingKey : String)
  | retrievalError
  | templateError
  | modelError
deriving DecidableEq, Repr

/-- Modelled from the spec (§3): a ConversationTurn is an immutable
question/answer pair. -/
structure ConversationTurn where
  question : String
  answer : String
deriving DecidableEq, Repr

/-- Modelled from the spec (§3): a RetrievedPassage is passage content plus
opaque relevance metadata (kept as a string). -/
structure RetrievedPassage where
  content : String
  metadata : String
deriving DecidableEq, Repr

/-- A piece of a prompt template: literal text or one of the three named
insertion slots (`chat_history`, `context`, `question`). -/
inductive TemplateSeg
  | lit (s : String)
  | slotHistory
  | slotContext
  | slotQuestion
deriving DecidableEq, Repr

/-- The notebook's prompt template (cell defining `template`), split at its
three placeholders `{chat_history}`, `{context}`, `{question}`. -/
def template : List TemplateSeg :=
  [ .lit "\nSystem:\nYou are an AI assistant helping users with queries related to outdoor outdooor/camping gear and clothing.\nUse the following pieces of context to answer the questions about outdoor/camping gear and clothing as completely, correctly, and concisely as possible.\n\n---\n\n"
  , .slotHistory
  , .lit "\n\n------\n\n"
  , .slotContext
  , .lit "\n\n------\n\n\nQuestion: "
  , .slotQuestion
  , .lit "\n\nAnswer:\"\n" ]

/-- The notebook's `PromptTemplate(input_variables=...)` argument. -/
def input_variables : List String := ["context", "chat_history", "question"]

def isHistorySlot : TemplateSeg → Bool
  | .slotHistory => true
  | _ => false

def isContextSlot : TemplateSeg → Bool
  | .slotContext => true
  | _ => false

def isQuestionSlot : TemplateSeg → Bool
  | .slotQuestion => true
  | _ => false

/-- A template is valid when it has all three required named slots. -/
def hasAllSlots (t : List TemplateSeg) : Bool :=
  t.any isHistorySlot && t.any isContextSlot && t.any isQuestionSlot

/-- Value substituted for one segment: literal text is kept unaltered, each
slot receives the corresponding input in full. -/
def renderSeg (h c q : String) : TemplateSeg → String
  | .lit s => s
  | .slotHistory => h
  | .slotContext => c
  | .slotQuestion => q

/-- Concatenation of all substituted segments, in template order. -/
def joinRender (h c q : String) : List TemplateSeg → String
  | [] => ""
  | s :: rest => renderSeg h c q s ++ joinRender h c q rest

/-- Modelled from the spec (§4.2): the Prompt Composer.  A pure function
that substitutes history, context and question into the template's slots and
fails with a template error when a required slot is missing. -/
def compose (t : List TemplateSeg) (h c q : String) : Except RagError String :=
  if hasAllSlots t then .ok (joinRender h c q t) else .error .templateError

/-- Modelled from the spec (§4.1): Conversation Memory `append` adds one turn
at the end of the ordered log. -/
def memAppend (mem : List ConversationTurn) (t : ConversationTurn) :
    List ConversationTurn :=
  mem ++ [t]

/-- Modelled from the spec (§4.1): deterministic serialization of one stored
turn (the framework's buffer labels the speakers). -/
def renderTurn (t : ConversationTurn) : String :=
  "Human: " ++ t.question ++ "\nAI: " ++ t.answer

/-- Modelled from the spec (§4.1): `render` serializes all stored turns, in
insertion order, each turn terminated by a newline. -/
def render : List ConversationTurn → String
  | [] => ""
  | t :: ts => renderTurn t ++ "\n" ++ render ts

/-- Modelled from the spec (§4.3/§4.4): the two opaque external capabilities,
as test-double functions; `none` is the remote failure case
(`RetrievalError` / `ModelError`). -/
structure Collaborators where
  retrieve : String → Nat → Option (List RetrievedPassage)
  complete : String → Option String

/-- Modelled from the spec (§4.5 step 3): the retrieved passage contents are
concatenated (blank-line separated) to form the context text. -/
def concatPassages (ps : List RetrievedPassage) : String :=
  String.intercalate "\n\n" (ps.map RetrievedPassage.content)

/-- One observable call made by the Orchestrator Loop during a request. -/
inductive CallEvent
  | retrieverCall (query : String) (k : Nat)
  | composerCall (historyText contextText question : String)
  | modelCall (prompt : String)
  | memoryAppendCall (turn : ConversationTurn)
deriving DecidableEq, Repr

/-- Outcome of one request: the answer (or error), the Conversation Memory
after the request, and the exact sequence of collaborator calls made. -/
structure StepOutcome where
  result : Except RagError String
  memory : List ConversationTurn
  trace : List CallEvent
deriving Repr

/-- The notebook's retriever configuration
(`AzureCognitiveSearchRetriever(content_key="content", top_k=10,
service_name=resource_name)`). -/
structure AzureCognitiveSearchRetriever where
  content_key : String
  top_k : Nat
  service_name : String
deriving DecidableEq, Repr

/-- The `top_k=10` value configured on the notebook's retriever. -/
def retrieverTopK : Nat := 10

/-- Modelled from the spec (§4.5): the Orchestrator Loop for one question —
Retriever, then Prompt Composer over the rendered memory and concatenated
passages, then Chat Model Client, then Memory Append; any failure aborts the
request with the corresponding error and leaves memory untouched. -/
def orchestrate (c : Collaborators) (t : List TemplateSeg) (k : Nat)
    (mem : List ConversationTurn) (question : String) : StepOutcome :=
  match c.retrieve question k with
  | none => ⟨.error .retrievalError, mem, [.retrieverCall question k]⟩
  | some ps =>
    let h := render mem
    let ctx := concatPassages ps
    match compose t h ctx question with
    | .error e =>
        ⟨.error e, mem, [.retrieverCall question k, .composerCall h ctx question]⟩
    | .ok prompt =>
      match c.complete prompt with
      | none =>
          ⟨.error .modelError, mem,
            [.retrieverCall question k, .composerCall h ctx question,
             .modelCall prompt]⟩
      | some ans =>
          ⟨.ok ans, memAppend mem ⟨question, ans⟩,
            [.retrieverCall question k, .composerCall h ctx question,
             .modelCall prompt, .memoryAppendCall ⟨question, ans⟩]⟩

/-- One question against the notebook's chain: the source template and the
configured `top_k = 10`. -/
def askQuestion (c : Collaborators) (mem : List ConversationTurn)
    (question : String) : StepOutcome :=
  orchestrate c template retrieverTopK mem question

/-! ### Environment variables and credential setup (notebook cells 3–13) -/

/-- The process environment: `os.environ` / `os.getenv`, a partial map from
variable names to values. -/
def EnvVars : Type := String → Option String

/-- `os.environ[key] = val`. -/
def setEnv (env : EnvVars) (key val : String) : EnvVars :=
  fun k => if k = key then some val else env k

/-- `os.environ[key]`: raises `KeyError(key)` when the variable is absent,
reported here as the spec's configuration error. -/
def envIndex (env : EnvVars) (key : String) : Except RagError String :=
  match env key with
  | some v => .ok v
  | none => .error (.configurationError key)

/-- The `openai` module attributes assigned by `setup_credentials`. -/
structure OpenAIModule where
  api_type : String
  api_key : String
  api_version : String
  api_base : String
deriving DecidableEq, Repr

/-- The notebook's `setup_credentials`: reads the four `OPENAI_*` variables
into the `openai` module, then copies the `AZURE_AI_SEARCH_*` variables into
the `AZURE_COGNITIVE_SEARCH_*` variables (reading `AZURE_AI_SEARCH_KEY` for
both the API-key and the service-name variable, as the source does).
Returns the module state and the updated environment. -/
def setup_credentials (env : EnvVars) : Except RagError (OpenAIModule × EnvVars) := do
  let t ← envIndex env "OPENAI_API_TYPE"
  let k ← envIndex env "OPENAI_API_KEY"
  let v ← envIndex env "OPENAI_API_VERSION"
  let b ← envIndex env "OPENAI_API_BASE"
  let target ← envIndex env "AZURE_AI_SEARCH_ENDPOINT"
  let env := setEnv env "AZURE_COGNITIVE_SEARCH_TARGET" target
  let apiKey ← envIndex env "AZURE_AI_SEARCH_KEY"
  let env := setEnv env "AZURE_COGNITIVE_SEARCH_API_KEY" apiKey
  let serviceName ← envIndex env "AZURE_AI_SEARCH_KEY"
  let env := setEnv env "AZURE_COGNITIVE_SEARCH_SERVICE_NAME" serviceName
  let indexName ← envIndex env "AZURE_AI_SEARCH_INDEX_NAME"
  let env := setEnv env "AZURE_COGNITIVE_SEARCH_INDEX_NAME" indexName
  pure (⟨t, k, v, b⟩, env)

/-! ### The search-resource-name computation (notebook cell 7)

`get_search_resource_name` returns `urlparse(srv_url).netloc`, and
`resource_name = str(endpoint).split('.', 1)[0]`.  `urlparse` is modelled
from CPython's `urllib.parse.urlsplit` (Python 3.10/3.11).  `urlsplit` first
computes the netloc text: strip leading C0-control/space characters, remove
tab, CR and LF everywhere, strip a leading `scheme:` when the text before the
first colon starts with an ASCII letter and consists of scheme characters,
and when the remainder starts with `//` take everything up to the first `/`,
`?` or `#` (otherwise the netloc is empty).  It then validates that text and
can raise `ValueError`: an unmatched `[` or `]` raises `Invalid IPv6 URL`, a
bracketed host is parsed as an IP address (which can raise), and
`_checknetloc` raises on some non-ASCII netlocs after NFKC normalization.
When the netloc is ASCII and bracket-free, all three checks provably pass.
The model therefore splits in two: `netlocCandidate` is the total
pre-validation text, and `urlparseNetloc` is the partial model of
`urlparse(url).netloc` — `some` exactly on ASCII bracket-free netlocs, where
CPython returns without raising, and `none` on netlocs with brackets or
non-ASCII characters, about which the model asserts nothing (CPython may
raise there, e.g. `https://myservice.[x` raises `Invalid IPv6 URL`). -/

/-- Leading-whitespace strip: `url.lstrip(_WHATWG_C0_CONTROL_OR_SPACE)`
removes leading characters with code points ≤ 0x20. -/
def dropC0 (l : List Char) : List Char :=
  l.dropWhile fun c => c.toNat ≤ 32

/-- `_UNSAFE_URL_BYTES_TO_REMOVE`: tab, CR and LF are removed everywhere. -/
def stripUnsafe (l : List Char) : List Char :=
  l.filter fun c => ¬ (c = Char.ofNat 9 ∨ c = Char.ofNat 13 ∨ c = Char.ofNat 10)

/-- The full URL preprocessing applied by `urlsplit` before parsing. -/
def preprocessUrl (url : String) : List Char :=
  stripUnsafe (dropC0 url.toList)

/-- `scheme_chars`: ASCII letters, digits and `+`, `-`, `.`. -/
def isSchemeChar (c : Char) : Bool :=
  c.isAlphanum || c = '+' || c = '-' || c = '.'

/-- Strip a leading `scheme:` when present and well formed: the first colon
is at a positive index, the first character is an ASCII letter, and every
character before the colon is a scheme character. -/
def dropScheme (l : List Char) : List Char :=
  match l.findIdx? (fun c => c = ':') with
  | none => l
  | some i =>
    if 0 < i ∧ (l.headD ' ').isAlpha ∧ (l.take i).all isSchemeChar then
      l.drop (i + 1)
    else l

/-- The netloc text `urlsplit` computes before its validation checks: when
the remainder starts with `//`, everything after it up to the first `/`, `?`
or `#`.  Total by construction; whether `urlsplit` returns it or raises is
decided by the validation modelled in `urlparseNetloc` below. -/
def netlocCandidate (url : String) : String :=
  if (dropScheme (preprocessUrl url)).take 2 = ['/', '/'] then
    String.mk (((dropScheme (preprocessUrl url)).drop 2).takeWhile
      fun c => ¬ (c = '/' ∨ c = '?' ∨ c = '#'))
  else ""

/-- A netloc character on which `urlsplit`'s validation provably does not
fire: ASCII (so `_checknetloc` returns early) and not a bracket (so the
`Invalid IPv6 URL` and bracketed-host checks are skipped). -/
def isNetlocSafeChar (c : Char) : Bool :=
  c.toNat < 128 ∧ ¬ (c = '[' ∨ c = ']')

/-- `urlparse(url).netloc` for a string argument, as a partial model:
`some` of the netloc text when that text is ASCII and bracket-free — then
`urlsplit` returns it without raising — and `none` when the netloc contains
a bracket or a non-ASCII character, inputs on which `urlsplit`'s validation
may raise `ValueError` and about which this model asserts nothing. -/
def urlparseNetloc (url : String) : Option String :=
  if (netlocCandidate url).toList.all isNetlocSafeChar then
    some (netlocCandidate url)
  else none

/-- A Python runtime value that is either a `str` or a `bytes`. -/
inductive PyVal
  | str (s : String)
  | bytes (s : String)
deriving DecidableEq, Repr

/-- Python's `str()` applied to such a value: identity on `str`, the `repr`
on `bytes` (so `str(b'')` is the four-character text `b''`). -/
def pyStr : PyVal → String
  | .str s => s
  | .bytes s => "b" ++ String.mk [Char.ofNat 39] ++ s ++ String.mk [Char.ofNat 39]

/-- The notebook's `get_search_resource_name(srv_url)`, applied to the result
of `os.getenv('AZURE_AI_SEARCH_ENDPOINT')`.  On a string it returns the
parsed netloc (a `str`) where the netloc model is defined.  On Python `None`
(variable unset), `urlparse` coerces the argument through its bytes path —
`_coerce_args` treats the falsy argument as `''`, parses, and re-encodes the
components — so the netloc comes back as the empty `bytes` value `b''`. -/
def get_search_resource_name : Option String → Option PyVal
  | some srv_url => (urlparseNetloc srv_url).map PyVal.str
  | none => some (PyVal.bytes "")

/-- Python's `s.split('.', 1)[0]`: the text before the first `.` (the whole
string when it has no dot). -/
def beforeFirstDot (s : String) : String :=
  String.mk (s.toList.takeWhile fun c => ¬ c = '.')

/-- The notebook's `resource_name` computation:
`str(get_search_resource_name(os.getenv('AZURE_AI_SEARCH_ENDPOINT'))).split('.', 1)[0]`,
defined exactly where the netloc model is. -/
def resource_name (env : EnvVars) : Option String :=
  (get_search_resource_name (env "AZURE_AI_SEARCH_ENDPOINT")).map
    fun v => beforeFirstDot (pyStr v)

/-- The same computation over the pre-validation netloc text, used only to
fill the retriever configuration during initialization.  Where
`resource_name` is defined the two agree; on endpoints whose netloc fails
validation the notebook's cell would abort with `ValueError` instead of
producing a retriever — that abort is not modelled, and no theorem depends
on the retriever's `service_name` for such endpoints. -/
def resource_nameText (env : EnvVars) : String :=
  beforeFirstDot (pyStr (match env "AZURE_AI_SEARCH_ENDPOINT" with
    | some srv_url => PyVal.str (netlocCandidate srv_url)
    | none => PyVal.bytes ""))

/-- The nine environment variables the notebook reads during initialization:
API type, API key, API version, API base endpoint, search endpoint, search
key, search index name, chat deployment name, chat model name. -/
def requiredEnvVars : List String :=
  [ "OPENAI_API_TYPE", "OPENAI_API_KEY", "OPENAI_API_VERSION",
    "OPENAI_API_BASE", "AZURE_AI_SEARCH_ENDPOINT", "AZURE_AI_SEARCH_KEY",
    "AZURE_AI_SEARCH_INDEX_NAME", "AZURE_OPENAI_CHAT_DEPLOYMENT",
    "AZURE_OPENAI_CHAT_MODEL" ]

/-- The notebook's `AzureChatOpenAI(...)` configuration (temperature 0.7). -/
structure AzureChatOpenAI where
  deployment_name : String
  model_name : String
  temperature : ℚ
deriving DecidableEq, Repr

/-- Everything the notebook builds before the first question is asked. -/
structure Session where
  openaiModule : OpenAIModule
  envAfter : EnvVars
  retriever : AzureCognitiveSearchRetriever
  llm : AzureChatOpenAI
  promptTemplate : List TemplateSeg

/-- The notebook's startup sequence, in cell order: `setup_credentials()`,
the `resource_name` computation, the retriever construction
(`content_key="content"`, `top_k=10`), and the `AzureChatOpenAI`
construction, which reads the two `AZURE_OPENAI_CHAT_*` variables.  Any
missing required variable raises before a `Session` exists, hence before any
question can be processed. -/
def initializeSession (env : EnvVars) : Except RagError Session := do
  let (oai, env2) ← setup_credentials env
  let rn := resource_nameText env2
  let retr : AzureCognitiveSearchRetriever :=
    { content_key := "content", top_k := retrieverTopK, service_name := rn }
  let dep ← envIndex env2 "AZURE_OPENAI_CHAT_DEPLOYMENT"
  let mdl ← envIndex env2 "AZURE_OPENAI_CHAT_MODEL"
  pure ⟨oai, env2, retr, ⟨dep, mdl, 7 / 10⟩, template⟩

/-- Does initialization fail with the spec's configuration error? -/
def isConfigError : Except RagError Session → Bool
  | .error (.configurationError _) => true
  | _ => false

/-! ### Helper functions for stating the theorems -/

/-- Does the pattern occur as the leading characters of the list? -/
def startsWithL : List Char → List Char → Bool
  | [], _ => true
  | _ :: _, [] => false
  | a :: p, b :: l => a = b && startsWithL p l

/-- Does the pattern occur contiguously anywhere in the list? -/
def isSubL : List Char → List Char → Bool
  | p, [] => startsWithL p []
  | p, c :: rest => startsWithL p (c :: rest) || isSubL p rest

/-- Does `s` contain `sub` as a contiguous substring? -/
def strContains (s sub : String) : Bool :=
  isSubL sub.toList s.toList

/-- Total length of the literal segments of a template. -/
def litLen : List TemplateSeg → Nat
  | [] => 0
  | .lit s :: rest => s.length + litLen rest
  | _ :: rest => litLen rest

/-- A character acceptable inside the host-name part of an endpoint for the
resource-name theorems: ASCII, not a dot, not a netloc delimiter, not a
bracket, not one of the characters `urlsplit` removes — so the name survives
preprocessing unchanged and keeps the netloc inside the validated-safe
domain. -/
def isNameChar (c : Char) : Bool :=
  c.toNat < 128 ∧
  ¬ (c = '.' ∨ c = '/' ∨ c = '?' ∨ c = '#' ∨ c = '[' ∨ c = ']'
      ∨ c = Char.ofNat 9 ∨ c = Char.ofNat 13 ∨ c = Char.ofNat 10)

/-! ### Concrete inputs used by the spec's scenarios and by the witnesses -/

/-- The two sleeping-bag passages of the spec's RAG scenario (§8). -/
def scenarioPassages : List RetrievedPassage :=
  [ ⟨"CozyNights Sleeping Bag, item 7, polyester", ""⟩
  , ⟨"MountainDream Sleeping Bag, item 14, polyester", ""⟩ ]

/-- The scenario question (also the notebook's demonstrated inquiry). -/
def scenarioQuestion : String := "Which of your sleeping bags are polyester?"

/-- The answer text the scenario's stubbed Chat Model Client echoes. -/
def scenarioAnswer : String :=
  "CozyNights Sleeping Bag (item_number: 7) and MountainDream Sleeping Bag (item_number: 14) are both made of polyester"

/-- Stub collaborators for the scenario: the Retriever returns the two
passages for any query, the Chat Model Client echoes the fixed answer. -/
def scenarioStub : Collaborators :=
  ⟨fun _ _ => some scenarioPassages, fun _ => some scenarioAnswer⟩

/-- The scenario request: empty Conversation Memory, the scenario question. -/
def scenarioRun : StepOutcome :=
  askQuestion scenarioStub [] scenarioQuestion

/-- An environment in which every variable is set (to its own name). -/
def envAll : EnvVars := fun k => some k

/-- The environment `setup_credentials` produces from `envAll`. -/
def envAllAfter : EnvVars :=
  setEnv (setEnv (setEnv (setEnv envAll
    "AZURE_COGNITIVE_SEARCH_TARGET" "AZURE_AI_SEARCH_ENDPOINT")
    "AZURE_COGNITIVE_SEARCH_API_KEY" "AZURE_AI_SEARCH_KEY")
    "AZURE_COGNITIVE_SEARCH_SERVICE_NAME" "AZURE_AI_SEARCH_KEY")
    "AZURE_COGNITIVE_SEARCH_INDEX_NAME" "AZURE_AI_SEARCH_INDEX_NAME"

/-- An environment missing exactly the chat-model-name variable. -/
def envMissingModel : EnvVars :=
  fun k => if k = "AZURE_OPENAI_CHAT_MODEL" then none else some k

/-- The apostrophe character, as written by Python's `repr` of a bytes
value. -/
def quoteChar : String := String.mk [Char.ofNat 39]

/-! ## Supporting lemmas -/

lemma except_bind_ok {ε α β : Type} {x : Except ε α} {f : α → Except ε β} {b : β}
    (h : (x >>= f) = Except.ok b) : ∃ a, x = Except.ok a ∧ f a = Except.ok b := by
  cases x with
  | error e => exact absurd h (by simp [Bind.bind, Except.bind])
  | ok a => exact ⟨a, rfl, by simpa [Bind.bind, Except.bind] using h⟩

lemma except_bind_error {ε α β : Type} {x : Except ε α} {f : α → Except ε β} {e : ε}
    (h : (x >>= f) = Except.error e) :
    x = Except.error e ∨ ∃ a, x = Except.ok a ∧ f a = Except.error e := by
  cases x with
  | error e2 =>
    left
    have h2 : (Except.error e2 : Except ε β) = Except.error e := by
      simpa [Bind.bind, Except.bind] using h
    cases h2
    rfl
  | ok a => exact Or.inr ⟨a, rfl, by simpa [Bind.bind, Except.bind] using h⟩

lemma envIndex_ok {env : EnvVars} {k v : String} (h : envIndex env k = .ok v) :
    env k = some v := by
  unfold envIndex at h
  cases hk : env k with
  | none => rw [hk] at h; cases h
  | some w => rw [hk] at h; cases h; rfl

lemma envIndex_error {env : EnvVars} {k : String} {e : RagError}
    (h : envIndex env k = .error e) : e = .configurationError k := by
  unfold envIndex at h
  cases hk : env k with
  | none => rw [hk] at h; injection h with h; exact h.symm
  | some w => rw [hk] at h; cases h

lemma setup_credentials_ok {env : EnvVars} {m : OpenAIModule} {env2 : EnvVars}
    (h : setup_credentials env = .ok (m, env2)) :
    env "OPENAI_API_TYPE" = some m.api_type
    ∧ env "OPENAI_API_KEY" = some m.api_key
    ∧ env "OPENAI_API_VERSION" = some m.api_version
    ∧ env "OPENAI_API_BASE" = some m.api_base
    ∧ (∃ v, env "AZURE_AI_SEARCH_ENDPOINT" = some v)
    ∧ (∃ v, env "AZURE_AI_SEARCH_KEY" = some v)
    ∧ (∃ v, env "AZURE_AI_SEARCH_INDEX_NAME" = some v)
    ∧ env2 "AZURE_COGNITIVE_SEARCH_SERVICE_NAME" = env "AZURE_AI_SEARCH_KEY"
    ∧ env2 "AZURE_COGNITIVE_SEARCH_API_KEY" = env "AZURE_AI_SEARCH_KEY"
    ∧ (∀ k, k ≠ "AZURE_COGNITIVE_SEARCH_TARGET" → k ≠ "AZURE_COGNITIVE_SEARCH_API_KEY" →
        k ≠ "AZURE_COGNITIVE_SEARCH_SERVICE_NAME" → k ≠ "AZURE_COGNITIVE_SEARCH_INDEX_NAME" →
        env2 k = env k) := by
  unfold setup_credentials at h
  obtain ⟨t, h1, h⟩ := except_bind_ok h
  obtain ⟨k, h2, h⟩ := except_bind_ok h
  obtain ⟨v, h3, h⟩ := except_bind_ok h
  obtain ⟨b, h4, h⟩ := except_bind_ok h
  obtain ⟨target, h5, h⟩ := except_bind_ok h
  obtain ⟨apiKey, h6, h⟩ := except_bind_ok h
  obtain ⟨serviceName, h7, h⟩ := except_bind_ok h
  obtain ⟨indexName, h8, h⟩ := except_bind_ok h
  rw [show ∀ x : OpenAIModule × EnvVars, (pure x : Except RagError _) = Except.ok x
      from fun _ => rfl] at h
  injection h with h
  injection h with hm henv
  subst hm
  subst henv
  have h6' : env "AZURE_AI_SEARCH_KEY" = some apiKey := by
    have := envIndex_ok h6
    simpa [setEnv] using this
  have h7' : env "AZURE_AI_SEARCH_KEY" = some serviceName := by
    have := envIndex_ok h7
    simpa [setEnv] using this
  refine ⟨envIndex_ok h1, envIndex_ok h2, envIndex_ok h3, envIndex_ok h4,
    ⟨target, envIndex_ok h5⟩, ⟨apiKey, h6'⟩, ⟨indexName, by
      have := envIndex_ok h8
      simpa [setEnv] using this⟩, ?_, ?_, ?_⟩
  · simp [setEnv, h7']
  · simp [setEnv, h6']
  · intro key hk1 hk2 hk3 hk4
    simp [setEnv, hk1, hk2, hk3, hk4]

lemma initializeSession_ok {env : EnvVars} {s : Session}
    (h : initializeSession env = .ok s) :
    ∀ name ∈ requiredEnvVars, ∃ v, env name = some v := by
  unfold initializeSession at h
  obtain ⟨⟨m, env2⟩, hsetup, h⟩ := except_bind_ok h
  obtain ⟨h1, h2, h3, h4, h5, h6, h7, _, _, htr⟩ := setup_credentials_ok hsetup
  obtain ⟨dep, hdep, h⟩ := except_bind_ok h
  obtain ⟨mdl, hmdl, _⟩ := except_bind_ok h
  have hdep' : env "AZURE_OPENAI_CHAT_DEPLOYMENT" = some dep := by
    rw [← htr "AZURE_OPENAI_CHAT_DEPLOYMENT" (by decide) (by decide) (by decide) (by decide)]
    exact envIndex_ok hdep
  have hmdl' : env "AZURE_OPENAI_CHAT_MODEL" = some mdl := by
    rw [← htr "AZURE_OPENAI_CHAT_MODEL" (by decide) (by decide) (by decide) (by decide)]
    exact envIndex_ok hmdl
  intro name hname
  simp only [requiredEnvVars, List.mem_cons, List.not_mem_nil, or_false] at hname
  rcases hname with rfl | rfl | rfl | rfl | rfl | rfl | rfl | rfl | rfl
  · exact ⟨m.api_type, h1⟩
  · exact ⟨m.api_key, h2⟩
  · exact ⟨m.api_version, h3⟩
  · exact ⟨m.api_base, h4⟩
  · exact h5
  · exact h6
  · exact h7
  · exact ⟨dep, hdep'⟩
  · exact ⟨mdl, hmdl'⟩

lemma setup_credentials_error {env : EnvVars} {e : RagError}
    (h : setup_credentials env = .error e) : ∃ k, e = .configurationError k := by
  unfold setup_credentials at h
  rcases except_bind_error h with h | ⟨t, _, h⟩
  · exact ⟨_, envIndex_error h⟩
  rcases except_bind_error h with h | ⟨k, _, h⟩
  · exact ⟨_, envIndex_error h⟩
  rcases except_bind_error h with h | ⟨v, _, h⟩
  · exact ⟨_, envIndex_error h⟩
  rcases except_bind_error h with h | ⟨b, _, h⟩
  · exact ⟨_, envIndex_error h⟩
  rcases except_bind_error h with h | ⟨target, _, h⟩
  · exact ⟨_, envIndex_error h⟩
  rcases except_bind_error h with h | ⟨apiKey, _, h⟩
  · exact ⟨_, envIndex_error h⟩
  rcases except_bind_error h with h | ⟨serviceName, _, h⟩
  · exact ⟨_, envIndex_error h⟩
  rcases except_bind_error h with h | ⟨indexName, _, h⟩
  · exact ⟨_, envIndex_error h⟩
  cases h

lemma initializeSession_error {env : EnvVars} {e : RagError}
    (h : initializeSession env = .error e) : ∃ k, e = .configurationError k := by
  unfold initializeSession at h
  rcases except_bind_error h with h | ⟨⟨m, env2⟩, _, h⟩
  · exact setup_credentials_error h
  rcases except_bind_error h with h | ⟨dep, _, h⟩
  · exact ⟨_, envIndex_error h⟩
  rcases except_bind_error h with h | ⟨mdl, _, h⟩
  · exact ⟨_, envIndex_error h⟩
  cases h

lemma startsWithL_refl (p r : List Char) : startsWithL p (p ++ r) = true := by
  induction p with
  | nil => rfl
  | cons a p ih => simpa [startsWithL] using ih

lemma isSubL_of_starts {p l : List Char} (h : startsWithL p l = true) :
    isSubL p l = true := by
  cases l with
  | nil => simpa [isSubL] using h
  | cons c rest => simp [isSubL, h]

lemma isSubL_cons_of {p : List Char} (c : Char) {l : List Char} (h : isSubL p l = true) :
    isSubL p (c :: l) = true := by
  simp [isSubL, h]

lemma isSubL_append_left (a : List Char) {p l : List Char} (h : isSubL p l = true) :
    isSubL p (a ++ l) = true := by
  induction a with
  | nil => simpa using h
  | cons c a ih => simpa using isSubL_cons_of c ih

lemma isSubL_middle (a p b : List Char) : isSubL p (a ++ (p ++ b)) = true :=
  isSubL_append_left a (isSubL_of_starts (startsWithL_refl p b))

lemma isSubL_drop {p l : List Char} (k : Nat) (h : isSubL p (l.drop k) = true) :
    isSubL p l = true := by
  rw [← List.take_append_drop k l]
  exact isSubL_append_left _ h

lemma strContains_middle (a s b : String) : strContains (a ++ (s ++ b)) s = true := by
  have h : (a ++ (s ++ b)).toList = a.toList ++ (s.toList ++ b.toList) := by
    simp [String.toList, String.data_append]
  rw [strContains, h]
  exact isSubL_middle a.toList s.toList b.toList

lemma hasAllSlots_template : hasAllSlots template = true := by decide

lemma compose_template_ok (hist ctx qn : String) :
    compose template hist ctx qn = .ok (joinRender hist ctx qn template) := by
  simp [compose, hasAllSlots_template]

lemma joinRender_split (hist ctx qn : String) (t₁ : List TemplateSeg) (s : TemplateSeg)
    (t₂ : List TemplateSeg) :
    joinRender hist ctx qn (t₁ ++ s :: t₂)
      = joinRender hist ctx qn t₁ ++ (renderSeg hist ctx qn s ++ joinRender hist ctx qn t₂) := by
  induction t₁ with
  | nil => simp [joinRender]
  | cons a t ih => simp [joinRender, ih, String.append_assoc]

lemma joinRender_length (hist ctx qn : String) (t : List TemplateSeg) :
    (joinRender hist ctx qn t).length
      = litLen t + (t.filter isHistorySlot).length * hist.length
        + (t.filter isContextSlot).length * ctx.length
        + (t.filter isQuestionSlot).length * qn.length := by
  induction t with
  | nil => simp [joinRender, litLen]
  | cons s t ih =>
    cases s <;>
      simp [joinRender, renderSeg, litLen, isHistorySlot, isContextSlot, isQuestionSlot,
        String.length_append, ih, List.filter_cons] <;>
      ring

lemma askQuestion_success (c : Collaborators) (mem : List ConversationTurn)
    (q : String) (ps : List RetrievedPassage) (ans : String)
    (hr : c.retrieve q retrieverTopK = some ps)
    (hm : c.complete (joinRender (render mem) (concatPassages ps) q template) = some ans) :
    askQuestion c mem q =
      ⟨.ok ans, memAppend mem ⟨q, ans⟩,
        [ .retrieverCall q 10,
          .composerCall (render mem) (concatPassages ps) q,
          .modelCall (joinRender (render mem) (concatPassages ps) q template),
          .memoryAppendCall ⟨q, ans⟩ ]⟩ := by
  unfold askQuestion orchestrate
  rw [hr]
  dsimp only
  rw [compose_template_ok]
  dsimp only
  rw [hm]
  rfl

lemma askQuestion_model_failure (c : Collaborators) (mem : List ConversationTurn)
    (q : String) (ps : List RetrievedPassage)
    (hr : c.retrieve q retrieverTopK = some ps)
    (hm : c.complete (joinRender (render mem) (concatPassages ps) q template) = none) :
    askQuestion c mem q =
      ⟨.error .modelError, mem,
        [ .retrieverCall q 10,
          .composerCall (render mem) (concatPassages ps) q,
          .modelCall (joinRender (render mem) (concatPassages ps) q template) ]⟩ := by
  unfold askQuestion orchestrate
  rw [hr]
  dsimp only
  rw [compose_template_ok]
  dsimp only
  rw [hm]
  rfl

lemma askQuestion_retrieval_failure (c : Collaborators) (mem : List ConversationTurn)
    (q : String) (hr : c.retrieve q retrieverTopK = none) :
    askQuestion c mem q = ⟨.error .retrievalError, mem, [.retrieverCall q 10]⟩ := by
  unfold askQuestion orchestrate
  rw [hr]
  rfl

lemma foldl_memAppend (ts : List ConversationTurn) :
    ∀ acc, ts.foldl memAppend acc = acc ++ ts := by
  induction ts with
  | nil => intro acc; simp
  | cons t ts ih => intro acc; simp [memAppend, ih]

lemma render_split (m₁ : List ConversationTurn) (t : ConversationTurn)
    (m₂ : List ConversationTurn) :
    render (m₁ ++ t :: m₂) = render m₁ ++ (renderTurn t ++ ("\n" ++ render m₂)) := by
  induction m₁ with
  | nil => simp [render, String.append_assoc]
  | cons s m ih => simp [render, ih, String.append_assoc]

lemma renderTurn_contains (t : ConversationTurn) :
    strContains (renderTurn t) t.question = true
    ∧ strContains (renderTurn t) t.answer = true := by
  constructor
  · have h : renderTurn t = "Human: " ++ (t.question ++ ("\nAI: " ++ t.answer)) := by
      simp [renderTurn, String.append_assoc]
    rw [h]
    exact strContains_middle _ _ _
  · have h : renderTurn t = ("Human: " ++ t.question ++ "\nAI: ") ++ (t.answer ++ "") := by
      simp [renderTurn, String.append_assoc]
    rw [h]
    exact strContains_middle _ _ _

lemma toNat_gt32_of_alpha {c : Char} (h : c.isAlpha = true) : 32 < c.toNat := by
  simp [Char.isAlpha, Char.isUpper, Char.isLower] at h
  have he : c.toNat = c.val.toNat := rfl
  rcases h with ⟨h1, _⟩ | ⟨h1, _⟩ <;>
  · have h2 : (65:UInt32).toNat ≤ c.val.toNat ∨ (97:UInt32).toNat ≤ c.val.toNat := by
      first
      | exact Or.inl h1
      | exact Or.inr h1
    have e1 : (65:UInt32).toNat = 65 := rfl
    have e2 : (97:UInt32).toNat = 97 := rfl
    omega

lemma schemeChar_facts {c : Char} (h : isSchemeChar c = true) :
    32 < c.toNat ∧ c.toNat ≠ 58 := by
  simp [isSchemeChar, Char.isAlphanum] at h
  have he : c.toNat = c.val.toNat := rfl
  rcases h with (((ha | hd) | rfl) | rfl) | rfl
  · have := toNat_gt32_of_alpha ha
    constructor
    · exact this
    · simp [Char.isAlpha, Char.isUpper, Char.isLower] at ha
      rcases ha with ⟨h1, h2⟩ | ⟨h1, h2⟩ <;>
      · have l1 : (65:UInt32).toNat ≤ c.val.toNat ∨ (97:UInt32).toNat ≤ c.val.toNat := by
          first
          | exact Or.inl h1
          | exact Or.inr h1
        have l2 : c.val.toNat ≤ (90:UInt32).toNat ∨ c.val.toNat ≤ (122:UInt32).toNat := by
          first
          | exact Or.inl h2
          | exact Or.inr h2
        have e1 : (65:UInt32).toNat = 65 := rfl
        have e2 : (97:UInt32).toNat = 97 := rfl
        have e3 : (90:UInt32).toNat = 90 := rfl
        have e4 : (122:UInt32).toNat = 122 := rfl
        omega
  · unfold Char.isDigit at hd
    simp only [Bool.and_eq_true, decide_eq_true_eq] at hd
    obtain ⟨h1, h2⟩ := hd
    have l1 : (48:UInt32).toNat ≤ c.val.toNat := h1
    have l2 : c.val.toNat ≤ (57:UInt32).toNat := h2
    have e1 : (48:UInt32).toNat = 48 := rfl
    have e2 : (57:UInt32).toNat = 57 := rfl
    omega
  · constructor <;> decide
  · constructor <;> decide
  · constructor <;> decide

lemma toList_append (a b : String) : (a ++ b).toList = a.toList ++ b.toList := by
  simp [String.toList, String.data_append]

lemma ne_ctrl_of_gt32 {c : Char} (h : 32 < c.toNat) :
    ¬ (c = Char.ofNat 9 ∨ c = Char.ofNat 13 ∨ c = Char.ofNat 10) := by
  rintro (rfl | rfl | rfl) <;> revert h <;> decide

lemma stripUnsafe_eq_self {l : List Char}
    (h : ∀ c ∈ l, ¬ (c = Char.ofNat 9 ∨ c = Char.ofNat 13 ∨ c = Char.ofNat 10)) :
    stripUnsafe l = l :=
  List.filter_eq_self.mpr fun a ha => by simpa using h a ha

lemma stripUnsafe_append (a b : List Char) :
    stripUnsafe (a ++ b) = stripUnsafe a ++ stripUnsafe b :=
  List.filter_append a b

lemma isNameChar_spec {c : Char} (h : isNameChar c = true) :
    c.toNat < 128 ∧ c ≠ '.' ∧ c ≠ '/' ∧ c ≠ '?' ∧ c ≠ '#' ∧ c ≠ '[' ∧ c ≠ ']'
    ∧ c ≠ Char.ofNat 9 ∧ c ≠ Char.ofNat 13 ∧ c ≠ Char.ofNat 10 := by
  simp only [isNameChar, decide_eq_true_eq] at h
  push_neg at h
  exact h

lemma mem_takeWhile_mem {p : Char → Bool} {l : List Char} {a : Char}
    (h : a ∈ l.takeWhile p) : a ∈ l := by
  induction l with
  | nil => simp at h
  | cons c cs ih =>
    rw [List.takeWhile_cons] at h
    by_cases hp : p c = true
    · rw [if_pos hp] at h
      rcases List.mem_cons.mp h with rfl | h2
      · exact List.mem_cons_self _ _
      · exact List.mem_cons_of_mem _ (ih h2)
    · rw [if_neg hp] at h
      cases h

lemma takeWhile_append_all {p : Char → Bool} {l₁ l₂ : List Char}
    (h : ∀ c ∈ l₁, p c = true) :
    (l₁ ++ l₂).takeWhile p = l₁ ++ l₂.takeWhile p := by
  induction l₁ with
  | nil => simp
  | cons c l ih =>
    rw [List.cons_append, List.takeWhile_cons, if_pos (h c (by simp)),
      ih (fun d hd => h d (by simp [hd]))]
    simp

lemma preprocess_scheme_url (scheme name rest : String)
    (hs0 : scheme.toList ≠ [])
    (hsA : (scheme.toList.headD ' ').isAlpha = true)
    (hsc : scheme.toList.all isSchemeChar = true)
    (hname : name.toList.all isNameChar = true) :
    preprocessUrl (scheme ++ "://" ++ name ++ "." ++ rest)
      = scheme.toList ++ ':' :: '/' :: '/' :: (name.toList ++ '.' :: stripUnsafe rest.toList) := by
  have hsc' : ∀ c ∈ scheme.toList, isSchemeChar c = true := List.all_eq_true.mp hsc
  have hname' : ∀ c ∈ name.toList, isNameChar c = true := List.all_eq_true.mp hname
  have hl : (scheme ++ "://" ++ name ++ "." ++ rest).toList
      = scheme.toList ++ (':' :: '/' :: '/' :: (name.toList ++ '.' :: rest.toList)) := by
    rw [toList_append, toList_append, toList_append, toList_append]
    rw [show ("://" : String).toList = [':', '/', '/'] from rfl,
        show ("." : String).toList = ['.'] from rfl]
    simp
  obtain ⟨c, cs, hcs⟩ := List.exists_cons_of_ne_nil hs0
  have hcAlpha : c.isAlpha = true := by
    rw [hcs] at hsA
    simpa using hsA
  have hc32 : 32 < c.toNat := toNat_gt32_of_alpha hcAlpha
  have hschemeCtrl : ∀ d ∈ scheme.toList,
      ¬ (d = Char.ofNat 9 ∨ d = Char.ofNat 13 ∨ d = Char.ofNat 10) :=
    fun d hd => ne_ctrl_of_gt32 (schemeChar_facts (hsc' d hd)).1
  have hnameCtrl : ∀ d ∈ name.toList,
      ¬ (d = Char.ofNat 9 ∨ d = Char.ofNat 13 ∨ d = Char.ofNat 10) := by
    intro d hd
    obtain ⟨-, -, -, -, -, -, -, h9, h13, h10⟩ := isNameChar_spec (hname' d hd)
    rintro (rfl | rfl | rfl) <;> simp_all
  unfold preprocessUrl
  rw [hl, hcs, List.cons_append]
  have hdropC0 : dropC0 (c :: (cs ++ (':' :: '/' :: '/' :: (name.toList ++ '.' :: rest.toList))))
      = c :: (cs ++ (':' :: '/' :: '/' :: (name.toList ++ '.' :: rest.toList))) := by
    unfold dropC0
    rw [List.dropWhile_cons, if_neg (by simp; omega)]
  rw [hdropC0]
  have e1 : c :: (cs ++ (':' :: '/' :: '/' :: (name.toList ++ '.' :: rest.toList)))
      = (c :: cs) ++ ([':', '/', '/'] ++ (name.toList ++ (['.'] ++ rest.toList))) := by
    simp
  rw [e1, stripUnsafe_append, stripUnsafe_append, stripUnsafe_append, stripUnsafe_append]
  rw [stripUnsafe_eq_self (by rw [← hcs]; exact hschemeCtrl),
      show stripUnsafe [':', '/', '/'] = [':', '/', '/'] from by decide,
      stripUnsafe_eq_self hnameCtrl,
      show stripUnsafe ['.'] = ['.'] from by decide]
  simp

lemma findIdx_append_first {p : Char → Bool} (l₁ : List Char) (x : Char) (l₂ : List Char)
    (h1 : ∀ c ∈ l₁, p c = false) (hx : p x = true) :
    ∀ i, List.findIdx? p (l₁ ++ x :: l₂) i = some (i + l₁.length) := by
  induction l₁ with
  | nil => intro i; simp [List.findIdx?_cons, hx]
  | cons c l ih =>
    intro i
    have hc := h1 c (by simp)
    rw [List.cons_append, List.findIdx?_cons, if_neg (by simp [hc])]
    rw [ih (fun d hd => h1 d (by simp [hd])) (i + 1)]
    congr 1
    simp
    omega

lemma dropScheme_strip (scheme : String) (r : List Char)
    (hs0 : scheme.toList ≠ [])
    (hsA : (scheme.toList.headD ' ').isAlpha = true)
    (hsc : scheme.toList.all isSchemeChar = true) :
    dropScheme (scheme.toList ++ ':' :: r) = r := by
  have hsc' : ∀ c ∈ scheme.toList, isSchemeChar c = true := List.all_eq_true.mp hsc
  have hcolon : ∀ c ∈ scheme.toList, (fun c => decide (c = ':')) c = false := by
    intro c hc
    have hne : c ≠ ':' := by
      intro heq
      exact (schemeChar_facts (hsc' c hc)).2 (by rw [heq]; rfl)
    simpa using hne
  unfold dropScheme
  rw [findIdx_append_first scheme.toList ':' r hcolon (by simp) 0]
  rw [Nat.zero_add]
  dsimp only
  have hheadD : (scheme.toList ++ ':' :: r).headD ' ' = scheme.toList.headD ' ' := by
    obtain ⟨c, cs, hcs⟩ := List.exists_cons_of_ne_nil hs0
    rw [hcs]
    rfl
  rw [if_pos ⟨List.length_pos.mpr hs0, by rw [hheadD]; exact hsA,
      by rw [List.take_left]; exact hsc⟩]
  have e : scheme.toList ++ ':' :: r = (scheme.toList ++ [':']) ++ r := by simp
  rw [e, show scheme.toList.length + 1 = (scheme.toList ++ [':']).length from by simp]
  exact List.drop_left _ _

lemma netlocCandidate_scheme (scheme name rest : String)
    (hs0 : scheme.toList ≠ [])
    (hsA : (scheme.toList.headD ' ').isAlpha = true)
    (hsc : scheme.toList.all isSchemeChar = true)
    (hname : name.toList.all isNameChar = true) :
    netlocCandidate (scheme ++ "://" ++ name ++ "." ++ rest)
      = String.mk (name.toList ++ '.' ::
          ((stripUnsafe rest.toList).takeWhile fun c => ¬ (c = '/' ∨ c = '?' ∨ c = '#'))) := by
  have hname' : ∀ c ∈ name.toList, isNameChar c = true := List.all_eq_true.mp hname
  unfold netlocCandidate
  rw [preprocess_scheme_url scheme name rest hs0 hsA hsc hname,
      show scheme.toList ++ ':' :: '/' :: '/' :: (name.toList ++ '.' :: stripUnsafe rest.toList)
        = scheme.toList ++ ':' :: ('/' :: '/' :: (name.toList ++ '.' :: stripUnsafe rest.toList))
        from rfl,
      dropScheme_strip scheme _ hs0 hsA hsc]
  have hcond : List.take 2 ('/' :: '/' :: (name.toList ++ '.' :: stripUnsafe rest.toList))
      = ['/', '/'] := rfl
  rw [if_pos hcond]
  congr 1
  rw [show List.drop 2 ('/' :: '/' :: (name.toList ++ '.' :: stripUnsafe rest.toList))
      = name.toList ++ '.' :: stripUnsafe rest.toList from rfl]
  have hkeep : ∀ c ∈ name.toList, (fun c => decide (¬ (c = '/' ∨ c = '?' ∨ c = '#'))) c = true := by
    intro c hc
    obtain ⟨-, -, h2, h3, h4, -, -, -, -, -⟩ := isNameChar_spec (hname' c hc)
    simp [h2, h3, h4]
  rw [takeWhile_append_all hkeep, List.takeWhile_cons, if_pos (by simp)]

lemma beforeFirstDot_name_dot (name : String) (T : List Char)
    (hname : name.toList.all isNameChar = true) :
    beforeFirstDot (String.mk (name.toList ++ '.' :: T)) = name := by
  unfold beforeFirstDot
  rw [show (String.mk (name.toList ++ '.' :: T)).toList = name.toList ++ '.' :: T from rfl]
  have hname' : ∀ c ∈ name.toList, isNameChar c = true := List.all_eq_true.mp hname
  have hkeep : ∀ c ∈ name.toList, (fun c => decide (¬ c = '.')) c = true := by
    intro c hc
    obtain ⟨-, h1, -⟩ := isNameChar_spec (hname' c hc)
    simp [h1]
  rw [takeWhile_append_all hkeep, List.takeWhile_cons]
  have hdot : ¬ ((decide ¬('.' = '.')) = true) := by simp
  rw [if_neg hdot, List.append_nil]
  rfl

lemma netloc_scheme_safe (name rest : String)
    (hname : name.toList.all isNameChar = true)
    (hrest : rest.toList.all isNetlocSafeChar = true) :
    (name.toList ++ '.' ::
        ((stripUnsafe rest.toList).takeWhile
          fun c => ¬ (c = '/' ∨ c = '?' ∨ c = '#'))).all isNetlocSafeChar = true := by
  have hname' : ∀ c ∈ name.toList, isNameChar c = true := List.all_eq_true.mp hname
  have hrest' : ∀ c ∈ rest.toList, isNetlocSafeChar c = true := List.all_eq_true.mp hrest
  rw [List.all_eq_true]
  intro c hc
  rcases List.mem_append.mp hc with hcn | hcd
  · obtain ⟨hlt, -, -, -, -, hlb, hrb, -, -, -⟩ := isNameChar_spec (hname' c hcn)
    simp only [isNetlocSafeChar, decide_eq_true_eq]
    exact ⟨hlt, by rintro (h | h) <;> [exact hlb h; exact hrb h]⟩
  · rcases List.mem_cons.mp hcd with rfl | hct
    · decide
    · exact hrest' c (List.mem_of_mem_filter (mem_takeWhile_mem hct))

lemma resource_name_scheme (env : EnvVars) (scheme name rest : String)
    (hs0 : scheme.toList ≠ [])
    (hsA : (scheme.toList.headD ' ').isAlpha = true)
    (hsc : scheme.toList.all isSchemeChar = true)
    (hname : name.toList.all isNameChar = true)
    (hrest : rest.toList.all isNetlocSafeChar = true)
    (henv : env "AZURE_AI_SEARCH_ENDPOINT" = some (scheme ++ "://" ++ name ++ "." ++ rest)) :
    resource_name env = some name := by
  have hnet := netlocCandidate_scheme scheme name rest hs0 hsA hsc hname
  have hsafe : (netlocCandidate (scheme ++ "://" ++ name ++ "." ++ rest)).toList.all
      isNetlocSafeChar = true := by
    rw [hnet]
    rw [show (String.mk (name.toList ++ '.' ::
        ((stripUnsafe rest.toList).takeWhile
          fun c => ¬ (c = '/' ∨ c = '?' ∨ c = '#')))).toList
        = name.toList ++ '.' ::
        ((stripUnsafe rest.toList).takeWhile
          fun c => ¬ (c = '/' ∨ c = '?' ∨ c = '#')) from rfl]
    exact netloc_scheme_safe name rest hname hrest
  have hU : urlparseNetloc (scheme ++ "://" ++ name ++ "." ++ rest)
      = some (netlocCandidate (scheme ++ "://" ++ name ++ "." ++ rest)) := by
    unfold urlparseNetloc
    rw [if_pos hsafe]
  unfold resource_name
  rw [henv]
  simp only [get_search_resource_name]
  rw [hU, hnet]
  show some (beforeFirstDot (pyStr (PyVal.str (String.mk (name.toList ++ '.' ::
      ((stripUnsafe rest.toList).takeWhile
        fun c => ¬ (c = '/' ∨ c = '?' ∨ c = '#'))))))) = some name
  rw [show pyStr (PyVal.str (String.mk (name.toList ++ '.' ::
      ((stripUnsafe rest.toList).takeWhile
        fun c => ¬ (c = '/' ∨ c = '?' ∨ c = '#')))))
      = String.mk (name.toList ++ '.' ::
        ((stripUnsafe rest.toList).takeWhile
          fun c => ¬ (c = '/' ∨ c = '?' ∨ c = '#'))) from rfl]
  exact congrArg some (beforeFirstDot_name_dot name _ hname)

lemma dropScheme_is_drop (l : List Char) : ∃ k, dropScheme l = l.drop k := by
  unfold dropScheme
  cases h : l.findIdx? (fun c => decide (c = ':')) with
  | none => exact ⟨0, (List.drop_zero l).symm⟩
  | some i =>
    dsimp only
    split
    · exact ⟨i + 1, rfl⟩
    · exact ⟨0, (List.drop_zero l).symm⟩

lemma netloc_empty_of_no_dslash (url : String)
    (h : isSubL ['/', '/'] (preprocessUrl url) = false) :
    netlocCandidate url = "" := by
  unfold netlocCandidate
  obtain ⟨k, hk⟩ := dropScheme_is_drop (preprocessUrl url)
  rw [hk]
  have hne : ¬ ((preprocessUrl url).drop k).take 2 = ['/', '/'] := by
    intro heq
    have hsplit : (preprocessUrl url).drop k
        = ['/', '/'] ++ ((preprocessUrl url).drop k).drop 2 := by
      conv_lhs => rw [← List.take_append_drop 2 ((preprocessUrl url).drop k)]
      rw [heq]
    have hsub : isSubL ['/', '/'] ((preprocessUrl url).drop k) = true := by
      rw [hsplit]
      simpa using isSubL_middle [] ['/', '/'] (((preprocessUrl url).drop k).drop 2)
    rw [isSubL_drop k hsub] at h
    cases h
  rw [if_neg hne]

lemma resource_name_no_dslash (env : EnvVars) (url : String)
    (henv : env "AZURE_AI_SEARCH_ENDPOINT" = some url)
    (h : isSubL ['/', '/'] (preprocessUrl url) = false) :
    resource_name env = some "" := by
  have h0 : netlocCandidate url = "" := netloc_empty_of_no_dslash url h
  have hU : urlparseNetloc url = some "" := by
    unfold urlparseNetloc
    rw [h0]
    rfl
  unfold resource_name
  rw [henv]
  simp only [get_search_resource_name]
  rw [hU]
  rfl

lemma resource_name_unset (env : EnvVars)
    (henv : env "AZURE_AI_SEARCH_ENDPOINT" = none) :
    resource_name env = some ("b" ++ quoteChar ++ quoteChar) := by
  unfold resource_name
  rw [henv]
  rfl

/-! ## The claims -/

/-- Claim C1: for every incoming question on which the collaborators succeed,
the Orchestrator Loop performs exactly the fixed sequence Retriever (called
with the question text and the configured K = 10), Prompt Composer, Chat
Model Client, Memory Append — each exactly once, in that order, with no other
call, branch, retry or caching — and returns the model's answer. -/
theorem orchestrator_fixed_sequence (c : Collaborators) (mem : List ConversationTurn)
    (q : String) (ps : List RetrievedPassage) (ans : String)
    (hr : c.retrieve q retrieverTopK = some ps)
    (hm : c.complete (joinRender (render mem) (concatPassages ps) q template) = some ans) :
    askQuestion c mem q =
      ⟨.ok ans, memAppend mem ⟨q, ans⟩,
        [ .retrieverCall q 10,
          .composerCall (render mem) (concatPassages ps) q,
          .modelCall (joinRender (render mem) (concatPassages ps) q template),
          .memoryAppendCall ⟨q, ans⟩ ]⟩ :=
  askQuestion_success c mem q ps ans hr hm

/-- Witness for C1 at a concrete stubbed collaborator pair. -/
theorem orchestrator_fixed_sequence_witness :
    askQuestion ⟨fun _ _ => some [], fun _ => some "an answer"⟩ [] "hi" =
      ⟨.ok "an answer", memAppend [] ⟨"hi", "an answer"⟩,
        [ .retrieverCall "hi" 10,
          .composerCall (render []) (concatPassages []) "hi",
          .modelCall (joinRender (render []) (concatPassages []) "hi" template),
          .memoryAppendCall ⟨"hi", "an answer"⟩ ]⟩ :=
  orchestrator_fixed_sequence ⟨fun _ _ => some [], fun _ => some "an answer"⟩ []
    "hi" [] "an answer" rfl rfl

/-- Claim C2: with empty Conversation Memory, a Retriever returning the two
sleeping-bag passages and a stubbed Chat Model Client echoing the stated
answer, the model receives a prompt containing both passages and the question
verbatim, the Orchestrator returns exactly the echoed text, and memory ends
with exactly that one turn. -/
theorem scenario_polyester_end_to_end :
    scenarioRun.result = .ok scenarioAnswer
    ∧ scenarioRun.memory = [⟨scenarioQuestion, scenarioAnswer⟩]
    ∧ ∃ prompt, CallEvent.modelCall prompt ∈ scenarioRun.trace
        ∧ strContains prompt "CozyNights Sleeping Bag, item 7, polyester" = true
        ∧ strContains prompt "MountainDream Sleeping Bag, item 14, polyester" = true
        ∧ strContains prompt scenarioQuestion = true := by
  refine ⟨rfl, rfl,
    joinRender (render []) (concatPassages scenarioPassages) scenarioQuestion template,
    by decide, by decide, by decide, by decide⟩

/-- Claim C3: for every template with the three required named slots and all
inputs, composing succeeds and the output is exactly the concatenation of the
substituted segments: at every slot position the corresponding input appears
verbatim, every literal segment appears unaltered, and the output length
accounts for the full history, context and question (no silent truncation). -/
theorem compose_places_inputs_verbatim (t : List TemplateSeg) (hist ctx qn : String)
    (hall : hasAllSlots t = true) :
    compose t hist ctx qn = .ok (joinRender hist ctx qn t)
    ∧ (∀ t₁ s t₂, t = t₁ ++ s :: t₂ →
        joinRender hist ctx qn t
          = joinRender hist ctx qn t₁ ++ (renderSeg hist ctx qn s ++ joinRender hist ctx qn t₂))
    ∧ (joinRender hist ctx qn t).length
        = litLen t + (t.filter isHistorySlot).length * hist.length
          + (t.filter isContextSlot).length * ctx.length
          + (t.filter isQuestionSlot).length * qn.length := by
  refine ⟨by simp [compose, hall], ?_, joinRender_length hist ctx qn t⟩
  rintro t₁ s t₂ rfl
  exact joinRender_split hist ctx qn t₁ s t₂

/-- Witness for C3 at the notebook's template, split at its question slot. -/
theorem compose_places_inputs_verbatim_witness :
    compose template "the history" "the context" "the question"
        = .ok (joinRender "the history" "the context" "the question" template)
    ∧ joinRender "the history" "the context" "the question" template
        = joinRender "the history" "the context" "the question" (template.take 5)
          ++ ("the question"
              ++ joinRender "the history" "the context" "the question" (template.drop 6)) := by
  refine ⟨(compose_places_inputs_verbatim template "the history" "the context"
    "the question" (by decide)).1, ?_⟩
  have h := (compose_places_inputs_verbatim template "the history" "the context"
    "the question" (by decide)).2.1 (template.take 5) TemplateSeg.slotQuestion
    (template.drop 6) (by decide)
  simpa using h

/-- Claim C4: for every template missing at least one of the three required
named slots and all inputs, compose fails with the template error and never
returns a composed prompt (it is a pure function, so there is no side
effect to observe). -/
theorem compose_missing_slot_fails (t : List TemplateSeg) (hist ctx qn : String)
    (hmiss : t.any isHistorySlot = false ∨ t.any isContextSlot = false
        ∨ t.any isQuestionSlot = false) :
    compose t hist ctx qn = .error .templateError
    ∧ ∀ out, compose t hist ctx qn ≠ .ok out := by
  have hall : hasAllSlots t = false := by
    rcases hmiss with h | h | h <;> simp [hasAllSlots, h]
  constructor
  · simp [compose, hall]
  · intro out
    simp [compose, hall]

/-- Witness for C4 at a slot-free template. -/
theorem compose_missing_slot_fails_witness :
    compose [TemplateSeg.lit "no slots at all"] "h" "c" "q" = .error .templateError :=
  (compose_missing_slot_fails [TemplateSeg.lit "no slots at all"] "h" "c" "q"
    (Or.inl (by decide))).1

/-- Claim C5: appending turns is monotone and order preserving — a sequence
of appends reproduces exactly the appended turns in insertion order, `render`
reproduces every stored turn, with its question and answer verbatim, at its
chronological position — and after two successful questions on one session
the second request's rendered history (as passed to the Prompt Composer)
contains the first turn's question and answer verbatim. -/
theorem memory_monotone_chronological (c : Collaborators) (q1 q2 a1 a2 : String)
    (ps1 ps2 : List RetrievedPassage)
    (hr1 : c.retrieve q1 retrieverTopK = some ps1)
    (hm1 : c.complete (joinRender (render []) (concatPassages ps1) q1 template) = some a1)
    (hr2 : c.retrieve q2 retrieverTopK = some ps2)
    (hm2 : c.complete (joinRender (render [⟨q1, a1⟩]) (concatPassages ps2) q2 template)
        = some a2) :
    (∀ ts : List ConversationTurn, ts.foldl memAppend [] = ts)
    ∧ (∀ m₁ t m₂, render (m₁ ++ t :: m₂) = render m₁ ++ (renderTurn t ++ ("\n" ++ render m₂)))
    ∧ (∀ t : ConversationTurn, strContains (renderTurn t) t.question = true
        ∧ strContains (renderTurn t) t.answer = true)
    ∧ (askQuestion c [] q1).memory = [⟨q1, a1⟩]
    ∧ (askQuestion c (askQuestion c [] q1).memory q2).memory = [⟨q1, a1⟩, ⟨q2, a2⟩]
    ∧ CallEvent.composerCall (render [⟨q1, a1⟩]) (concatPassages ps2) q2
        ∈ (askQuestion c (askQuestion c [] q1).memory q2).trace
    ∧ strContains (render [⟨q1, a1⟩]) q1 = true
    ∧ strContains (render [⟨q1, a1⟩]) a1 = true := by
  have h1 := askQuestion_success c [] q1 ps1 a1 hr1 hm1
  have hmem1 : (askQuestion c [] q1).memory = [⟨q1, a1⟩] := by rw [h1]; rfl
  have h2 : askQuestion c (askQuestion c [] q1).memory q2 =
      ⟨.ok a2, memAppend [⟨q1, a1⟩] ⟨q2, a2⟩,
        [ .retrieverCall q2 10,
          .composerCall (render [⟨q1, a1⟩]) (concatPassages ps2) q2,
          .modelCall (joinRender (render [⟨q1, a1⟩]) (concatPassages ps2) q2 template),
          .memoryAppendCall ⟨q2, a2⟩ ]⟩ := by
    rw [hmem1]
    exact askQuestion_success c [⟨q1, a1⟩] q2 ps2 a2 hr2 hm2
  refine ⟨fun ts => foldl_memAppend ts [], render_split, renderTurn_contains,
    hmem1, ?_, ?_, ?_, ?_⟩
  · rw [h2]
    rfl
  · rw [h2]
    simp
  · have hrend : render [⟨q1, a1⟩] = "Human: " ++ (q1 ++ ("\nAI: " ++ (a1 ++ "\n"))) := by
      simp [render, renderTurn, String.append_assoc]
    rw [hrend]
    exact strContains_middle _ _ _
  · have hrend : render [⟨q1, a1⟩] = ("Human: " ++ q1 ++ "\nAI: ") ++ (a1 ++ "\n") := by
      simp [render, renderTurn, String.append_assoc]
    rw [hrend]
    exact strContains_middle _ _ _

/-- Witness for C5: two concrete successful questions on one session. -/
theorem memory_monotone_chronological_witness :
    (askQuestion ⟨fun _ _ => some [], fun _ => some "A"⟩ [] "Q1").memory = [⟨"Q1", "A"⟩]
    ∧ (askQuestion ⟨fun _ _ => some [], fun _ => some "A"⟩
        (askQuestion ⟨fun _ _ => some [], fun _ => some "A"⟩ [] "Q1").memory "Q2").memory
        = [⟨"Q1", "A"⟩, ⟨"Q2", "A"⟩]
    ∧ strContains (render [⟨"Q1", "A"⟩]) "Q1" = true
    ∧ strContains (render [⟨"Q1", "A"⟩]) "A" = true :=
  ⟨(memory_monotone_chronological ⟨fun _ _ => some [], fun _ => some "A"⟩
      "Q1" "Q2" "A" "A" [] [] rfl rfl rfl rfl).2.2.2.1,
   (memory_monotone_chronological ⟨fun _ _ => some [], fun _ => some "A"⟩
      "Q1" "Q2" "A" "A" [] [] rfl rfl rfl rfl).2.2.2.2.1,
   (memory_monotone_chronological ⟨fun _ _ => some [], fun _ => some "A"⟩
      "Q1" "Q2" "A" "A" [] [] rfl rfl rfl rfl).2.2.2.2.2.2.1,
   (memory_monotone_chronological ⟨fun _ _ => some [], fun _ => some "A"⟩
      "Q1" "Q2" "A" "A" [] [] rfl rfl rfl rfl).2.2.2.2.2.2.2⟩

/-- Claim C6: when the Chat Model Client call fails, the request aborts with
the model error, Conversation Memory is exactly unchanged (same list, same
length), and no memory append is performed. -/
theorem model_failure_memory_unchanged (c : Collaborators) (mem : List ConversationTurn)
    (q : String) (ps : List RetrievedPassage)
    (hr : c.retrieve q retrieverTopK = some ps)
    (hm : c.complete (joinRender (render mem) (concatPassages ps) q template) = none) :
    (askQuestion c mem q).result = .error .modelError
    ∧ (askQuestion c mem q).memory = mem
    ∧ (askQuestion c mem q).memory.length = mem.length
    ∧ ∀ t, CallEvent.memoryAppendCall t ∉ (askQuestion c mem q).trace := by
  have h := askQuestion_model_failure c mem q ps hr hm
  refine ⟨by rw [h], by rw [h], by rw [h], ?_⟩
  intro t ht
  rw [h] at ht
  simp at ht

/-- Witness for C6: a failing stub model over a one-turn memory. -/
theorem model_failure_memory_unchanged_witness :
    (askQuestion ⟨fun _ _ => some [], fun _ => none⟩ [⟨"old q", "old a"⟩] "Q").result
        = .error .modelError
    ∧ (askQuestion ⟨fun _ _ => some [], fun _ => none⟩ [⟨"old q", "old a"⟩] "Q").memory
        = [⟨"old q", "old a"⟩]
    ∧ (askQuestion ⟨fun _ _ => some [], fun _ => none⟩ [⟨"old q", "old a"⟩] "Q").memory.length
        = [(⟨"old q", "old a"⟩ : ConversationTurn)].length :=
  ⟨(model_failure_memory_unchanged ⟨fun _ _ => some [], fun _ => none⟩
      [⟨"old q", "old a"⟩] "Q" [] rfl rfl).1,
   (model_failure_memory_unchanged ⟨fun _ _ => some [], fun _ => none⟩
      [⟨"old q", "old a"⟩] "Q" [] rfl rfl).2.1,
   (model_failure_memory_unchanged ⟨fun _ _ => some [], fun _ => none⟩
      [⟨"old q", "old a"⟩] "Q" [] rfl rfl).2.2.1⟩

/-- Claim C7: when the Retriever fails, the request aborts with the retrieval
error after the retriever call alone — the model is never called, no empty
context is substituted, nothing is appended — and memory is unchanged. -/
theorem retrieval_failure_propagates (c : Collaborators) (mem : List ConversationTurn)
    (q : String) (hr : c.retrieve q retrieverTopK = none) :
    (askQuestion c mem q).result = .error .retrievalError
    ∧ (askQuestion c mem q).memory = mem
    ∧ (askQuestion c mem q).memory.length = mem.length
    ∧ (askQuestion c mem q).trace = [.retrieverCall q 10]
    ∧ (∀ p, CallEvent.modelCall p ∉ (askQuestion c mem q).trace)
    ∧ (∀ t, CallEvent.memoryAppendCall t ∉ (askQuestion c mem q).trace) := by
  have h := askQuestion_retrieval_failure c mem q hr
  refine ⟨by rw [h], by rw [h], by rw [h], by rw [h], ?_, ?_⟩ <;>
    intro x hx <;> rw [h] at hx <;> simp at hx

/-- Witness for C7: a failing stub retriever over empty memory. -/
theorem retrieval_failure_propagates_witness :
    (askQuestion ⟨fun _ _ => none, fun _ => some "x"⟩ [] "Q").result
        = .error .retrievalError
    ∧ (askQuestion ⟨fun _ _ => none, fun _ => some "x"⟩ [] "Q").memory = []
    ∧ (askQuestion ⟨fun _ _ => none, fun _ => some "x"⟩ [] "Q").trace
        = [.retrieverCall "Q" 10] :=
  ⟨(retrieval_failure_propagates ⟨fun _ _ => none, fun _ => some "x"⟩ [] "Q" rfl).1,
   (retrieval_failure_propagates ⟨fun _ _ => none, fun _ => some "x"⟩ [] "Q" rfl).2.1,
   (retrieval_failure_propagates ⟨fun _ _ => none, fun _ => some "x"⟩ [] "Q" rfl).2.2.2.1⟩

/-- Claim C8: every one of the nine configuration items is required — if any
one is missing from the environment, the notebook's initialization sequence
fails with a configuration error, so no session exists and no question can
be processed. -/
theorem missing_config_fails_at_startup (env : EnvVars) (name : String)
    (hmem : name ∈ requiredEnvVars) (hnone : env name = none) :
    isConfigError (initializeSession env) = true := by
  cases hinit : initializeSession env with
  | ok s =>
    obtain ⟨v, hv⟩ := initializeSession_ok hinit name hmem
    rw [hv] at hnone
    cases hnone
  | error e =>
    obtain ⟨k, rfl⟩ := initializeSession_error hinit
    rfl

/-- Witness for C8: the environment missing only the chat-model name. -/
theorem missing_config_fails_at_startup_witness :
    "AZURE_OPENAI_CHAT_MODEL" ∈ requiredEnvVars
    ∧ envMissingModel "AZURE_OPENAI_CHAT_MODEL" = none
    ∧ isConfigError (initializeSession envMissingModel) = true :=
  ⟨by decide, by decide,
   missing_config_fails_at_startup envMissingModel "AZURE_OPENAI_CHAT_MODEL"
     (by decide) (by decide)⟩

/-- Claim C9: after `setup_credentials`, `AZURE_COGNITIVE_SEARCH_SERVICE_NAME`
holds the value of `AZURE_AI_SEARCH_KEY` (the search API key, not a service
name), and therefore equals `AZURE_COGNITIVE_SEARCH_API_KEY`. -/
theorem service_name_env_var_holds_search_key (env : EnvVars) (m : OpenAIModule)
    (env2 : EnvVars) (h : setup_credentials env = .ok (m, env2)) :
    env2 "AZURE_COGNITIVE_SEARCH_SERVICE_NAME" = env "AZURE_AI_SEARCH_KEY"
    ∧ env2 "AZURE_COGNITIVE_SEARCH_SERVICE_NAME"
        = env2 "AZURE_COGNITIVE_SEARCH_API_KEY" := by
  obtain ⟨-, -, -, -, -, -, -, hsvc, hkey, -⟩ := setup_credentials_ok h
  exact ⟨hsvc, by rw [hsvc, hkey]⟩

/-- Witness for C9: the fully populated environment `envAll`. -/
theorem service_name_env_var_holds_search_key_witness :
    envAllAfter "AZURE_COGNITIVE_SEARCH_SERVICE_NAME" = envAll "AZURE_AI_SEARCH_KEY"
    ∧ envAllAfter "AZURE_COGNITIVE_SEARCH_SERVICE_NAME"
        = envAllAfter "AZURE_COGNITIVE_SEARCH_API_KEY" :=
  service_name_env_var_holds_search_key envAll
    ⟨"OPENAI_API_TYPE", "OPENAI_API_KEY", "OPENAI_API_VERSION", "OPENAI_API_BASE"⟩
    envAllAfter rfl

/-- Counterexample to C10 as stated: when `AZURE_AI_SEARCH_ENDPOINT` is
unset, the computation does not receive the string `None` and does not
produce the empty string — `urlparse` coerces Python `None` through its bytes
path to the empty bytes netloc, and `str(b'')` makes `resource_name` the
four-character text `b''`. -/
theorem resource_name_unset_counterexample :
    resource_name (fun _ => none) = some ("b" ++ quoteChar ++ quoteChar)
    ∧ ¬ resource_name (fun _ => none) = some ""
    ∧ ¬ resource_name (fun _ => none) = some "None" := by
  refine ⟨rfl, by decide, by decide⟩

/-- Claim C10 (amended): on endpoints whose netloc is ASCII and bracket-free
— where `urlsplit` returns without raising — the computation is total: for
every endpoint `scheme://name.rest` with a well-formed scheme, a name that is
ASCII and free of `.`, `/`, `?`, `#`, brackets and the characters `urlsplit`
removes, and a rest of ASCII bracket-free characters, the resource name is
`name`; for every endpoint string whose preprocessed text has no `//`
(including the literal string `None`), the netloc is empty and the result is
the empty string; and when the variable is unset the result is the text
`b''`, not the empty string.  Netlocs containing brackets or non-ASCII
characters are outside this statement: `urlsplit`'s validation can raise
`ValueError` there and the model leaves them undetermined. -/
theorem resource_name_characterized (scheme name rest url : String)
    (envA envB envC : EnvVars)
    (hs0 : scheme.toList ≠ [])
    (hsA : (scheme.toList.headD ' ').isAlpha = true)
    (hsc : scheme.toList.all isSchemeChar = true)
    (hname : name.toList.all isNameChar = true)
    (hrest : rest.toList.all isNetlocSafeChar = true)
    (hA : envA "AZURE_AI_SEARCH_ENDPOINT" = some (scheme ++ "://" ++ name ++ "." ++ rest))
    (hB : envB "AZURE_AI_SEARCH_ENDPOINT" = some url)
    (hnds : isSubL ['/', '/'] (preprocessUrl url) = false)
    (hC : envC "AZURE_AI_SEARCH_ENDPOINT" = none) :
    resource_name envA = some name
    ∧ resource_name envB = some ""
    ∧ resource_name envC = some ("b" ++ quoteChar ++ quoteChar)
    ∧ ¬ resource_name envC = some "" :=
  ⟨resource_name_scheme envA scheme name rest hs0 hsA hsc hname hrest hA,
   resource_name_no_dslash envB url hB hnds,
   resource_name_unset envC hC,
   by rw [resource_name_unset envC hC]; decide⟩

/-- Witness for C10 at the three concrete endpoints: a real search URL, the
string `None`, and the unset variable. -/
theorem resource_name_characterized_witness :
    resource_name (fun _ => some "https://myservice.search.windows.net") = some "myservice"
    ∧ resource_name (fun _ => some "None") = some ""
    ∧ resource_name (fun _ => none) = some ("b" ++ quoteChar ++ quoteChar)
    ∧ ¬ resource_name (fun _ => none) = some "" :=
  resource_name_characterized "https" "myservice" "search.windows.net" "None"
    (fun _ => some "https://myservice.search.windows.net") (fun _ => some "None")
    (fun _ => none)
    (by decide) (by decide) (by decide) (by decide) (by decide) rfl rfl (by decide) rfl

end RagChat
